/-
Verification of the customer-onboarding orchestration core
(jignesh88/customer-onboarding-alpha) against its natural-language
specification.  Each JavaScript function relevant to the checked
properties is shallowly embedded as an executable Lean definition,
translated directly from the source file named in its doc comment.
-/
import Mathlib

namespace Onboarding

/-! ## String helpers

JavaScript `String.prototype.includes`, modelled on the character lists
underlying Lean strings. -/

/-- `listHasSub needle hay` is true when `needle` occurs as a contiguous
sublist of `hay` (JS `hay.includes(needle)`). -/
def listHasSub (needle : List Char) : List Char → Bool
  | [] => needle.isEmpty
  | c :: t => needle.isPrefixOf (c :: t) || listHasSub needle t

/-- JS `hay.includes(needle)` on strings. -/
def strHasSub (hay needle : String) : Bool :=
  listHasSub needle.data hay.data

/-- JS `s.toLowerCase()`, mapped over the underlying character list. -/
def strToLower (s : String) : String :=
  String.mk (s.data.map Char.toLower)

/-! ## AML screening lambda (src/unnamed/part_001)

The screening provider returns a risk score plus lists of alerts and
potential watchlist matches; the handler turns these into the three-way
risk decision. -/

/-- An alert returned by the screening provider
(`{ type, description, severity }`). -/
structure AmlAlert where
  type : String
  description : String
  severity : String
  deriving Repr, DecidableEq

/-- A potential watchlist match returned by the screening provider
(`{ watchlist, name, score, details }`). -/
structure AmlMatch where
  watchlist : String
  name : String
  score : Int
  deriving Repr, DecidableEq

/-- The screening-provider payload fields consulted by the handler's
decision logic (src/unnamed/part_001, `performAmlScreening` result). -/
structure ScreeningResult where
  riskScore : Int
  alerts : List AmlAlert
  potentialMatches : List AmlMatch
  simulated : Bool
  deriving Repr, DecidableEq

/-- `getRiskCategory` (src/unnamed/part_001 lines 264-270). -/
def getRiskCategory (riskScore : Int) : String :=
  if riskScore < 25 then "LOW"
  else if riskScore < 50 then "LOW_MEDIUM"
  else if riskScore < 75 then "MEDIUM"
  else if riskScore < 90 then "MEDIUM_HIGH"
  else "HIGH"

/-- `simulateAmlScreeningResult` (src/unnamed/part_001 lines 197-262).
Only the customer's name feeds the simulated score:
`nameLength = name ? name.length : 10` (JS: the empty string is falsy),
`baseRiskScore = (nameLength * 3) % 100`, +25 for a PEP name indicator,
+40 for a sanctions name indicator, capped at 100.  The payload carries
`simulated: true`. -/
def simulateAmlScreeningResult (name : Option String) : ScreeningResult :=
  let nameLength : Int :=
    match name with
    | some n => if n.isEmpty then 10 else (n.length : Int)
    | none => 10
  let baseRiskScore := (nameLength * 3) % 100
  let nameLower : String :=
    match name with
    | some n => if n.isEmpty then "" else strToLower n
    | none => ""
  let hasPepIndicator := strHasSub nameLower "official" ||
    strHasSub nameLower "minister" || strHasSub nameLower "diplomat"
  let hasSanctionsIndicator := strHasSub nameLower "sanction" ||
    strHasSub nameLower "watch"
  let score1 := if hasPepIndicator then baseRiskScore + 25 else baseRiskScore
  let score2 := if hasSanctionsIndicator then score1 + 40 else score1
  let riskScore := min score2 100
  let alerts : List AmlAlert :=
    (if hasPepIndicator then
      [{ type := "PEP", description := "Potential politically exposed person",
         severity := "MEDIUM" }] else []) ++
    (if hasSanctionsIndicator then
      [{ type := "SANCTIONS", description := "Potential match on sanctions list",
         severity := "HIGH" }] else [])
  let similarName : String :=
    (match name with | some n => n | none => "undefined") ++ " (similar)"
  let potentialMatches : List AmlMatch :=
    (if hasPepIndicator then
      [{ watchlist := "Global PEP Database", name := similarName, score := 85 }] else []) ++
    (if hasSanctionsIndicator then
      [{ watchlist := "OFAC Sanctions List", name := similarName, score := 75 }] else [])
  { riskScore := riskScore, alerts := alerts,
    potentialMatches := potentialMatches, simulated := true }

/-- The three-way outcome of the Risk Scoring Gate. -/
inductive RiskDecision where
  | reject
  | manualReview
  | pass
  deriving Repr, DecidableEq

/-- The risk decision branch taken by the AML handler
(src/unnamed/part_001 lines 60-113): `riskScore > 75` rejects,
otherwise `riskScore > 50 || alerts.length > 0 ||
potentialMatches.length > 0` sends to manual review, otherwise pass. -/
def riskGateDecision (score : Int) (alerts : List AmlAlert)
    (pMatches : List AmlMatch) : RiskDecision :=
  let needsManualReview := score > 50 || !alerts.isEmpty || !pMatches.isEmpty
  if score > 75 then .reject
  else if needsManualReview then .manualReview
  else .pass

/-- `performAmlScreening` (src/unnamed/part_001 lines 136-195) with the
external HTTP call abstracted as an `Except` outcome.  In the `dev`
environment the provider is never called and a simulated result is
returned; on a provider error a non-`prod` environment falls back to the
simulated result while `prod` rethrows. -/
def performAmlScreening (env : String) (name : Option String)
    (providerCall : Except String ScreeningResult) :
    Except String ScreeningResult :=
  if env == "dev" then .ok (simulateAmlScreeningResult name)
  else
    match providerCall with
    | .ok r => .ok r
    | .error e =>
      if env != "prod" then .ok (simulateAmlScreeningResult name)
      else .error ("AML screening service error: " ++ e)

/-- The `verification` object returned by the AML handler. -/
structure AmlOutcome where
  amlPassed : Bool
  manualReviewRequired : Bool
  deriving Repr, DecidableEq

/-- The AML handler's stage outcome (src/unnamed/part_001 lines 57-133):
a thrown screening error is caught and reported as
`{ aml_passed: false, manual_review_required: true }`; otherwise the
branch of `riskGateDecision` fixes the pair. -/
def amlHandlerOutcome (env : String) (name : Option String)
    (providerCall : Except String ScreeningResult) : AmlOutcome :=
  match performAmlScreening env name providerCall with
  | .error _ => { amlPassed := false, manualReviewRequired := true }
  | .ok r =>
    match riskGateDecision r.riskScore r.alerts r.potentialMatches with
    | .reject => { amlPassed := false, manualReviewRequired := false }
    | .manualReview => { amlPassed := false, manualReviewRequired := true }
    | .pass => { amlPassed := true, manualReviewRequired := false }

/-! ## Per-stage status updates (src/unnamed/part_001 lines 272-295)

`updateProcessStatus(processId, status, data)` issues a DynamoDB
`UpdateExpression` of the shape
`SET status = :status, updated_at = :timestamp, aml_screening.k = :valk, ...`
against the single onboarding record.  It takes no expected status and
attaches no condition expression; we model the logical effect of the
write on the stored record.  The `updateProcessStatus` copies in the
id-verification and biometric lambdas have the identical shape (only the
nested map name differs). -/

/-- Write `v` under key `k` in an association list, replacing an existing
entry (DynamoDB `SET map.k = :v` semantics). -/
def setField (m : List (String × String)) (k v : String) :
    List (String × String) :=
  if m.any (fun p => p.1 == k) then
    m.map (fun p => if p.1 == k then (k, v) else p)
  else m ++ [(k, v)]

/-- The stored onboarding-process record, restricted to the attributes
touched by `updateProcessStatus`: the top-level `status`, the
`updated_at` timestamp, and the stage-result map the extra data is
written into. -/
structure ProcessRecord where
  status : String
  updatedAt : Nat
  stageData : List (String × String)
  deriving Repr, DecidableEq

/-- `updateProcessStatus` (src/unnamed/part_001 lines 272-295): an
unconditional single-record write setting `status`, `updated_at`, and
each supplied data field.  There is no `expectedStatus` parameter, no
`ConditionExpression`, and no `Conflict` outcome. -/
def updateProcessStatus (r : ProcessRecord) (status : String) (ts : Nat)
    (data : List (String × String)) : ProcessRecord :=
  { r with
    status := status
    updatedAt := ts
    stageData := data.foldl (fun m kv => setField m kv.1 kv.2) r.stageData }

/-! ## The §4.5 state-machine graph (modelled from the spec)

The spec claims every persisted `status` moves only along these edges.
This definition follows the spec's words (§4.5), to be compared with the
store's actual behaviour. -/

/-- Modelled from the spec (§4.5): the happy-path chain plus each
stage's failure terminal and `MANUAL_REVIEW` off the AML stage. -/
def specEdge (a b : String) : Bool :=
  decide ((a, b) ∈ ([
    ("INITIATED", "DETAILS_COLLECTED"),
    ("DETAILS_COLLECTED", "ID_VERIFIED"),
    ("DETAILS_COLLECTED", "ID_VERIFICATION_FAILED"),
    ("ID_VERIFIED", "BIOMETRIC_VERIFIED"),
    ("ID_VERIFIED", "BIOMETRIC_VERIFICATION_FAILED"),
    ("BIOMETRIC_VERIFIED", "FINANCIAL_VERIFIED"),
    ("BIOMETRIC_VERIFIED", "FINANCIAL_VERIFICATION_FAILED"),
    ("FINANCIAL_VERIFIED", "AML_SCREENED"),
    ("FINANCIAL_VERIFIED", "AML_SCREENING_FAILED"),
    ("FINANCIAL_VERIFIED", "MANUAL_REVIEW"),
    ("AML_SCREENED", "ACCOUNT_CREATED"),
    ("AML_SCREENED", "ACCOUNT_CREATION_FAILED"),
    ("ACCOUNT_CREATED", "COMPLETED")] : List (String × String)))

/-- Modelled from the spec (§4.5 / §3): the statuses the spec calls
terminal. -/
def specTerminal (s : String) : Bool :=
  decide (s ∈ (["COMPLETED", "FAILED", "MANUAL_REVIEW",
    "ID_VERIFICATION_FAILED", "BIOMETRIC_VERIFICATION_FAILED",
    "FINANCIAL_VERIFICATION_FAILED", "AML_SCREENING_FAILED",
    "ACCOUNT_CREATION_FAILED"] : List String))

/-! ## Financial verification stage (src/unnamed/part_000 lines 590-701)

`performFinancialVerification` reads the process record; if
`cdr_consent` is falsy it returns a failed stage output immediately
(without touching DynamoDB and without calling any provider).  Otherwise
it calls six provider clients inside one `try` block; any thrown error
lands in the single `catch`, which persists
`status = FINANCIAL_VERIFICATION_FAILED` and returns
`financial_verified: false`. -/

/-- The slice of CDR data consulted downstream
(`cdrClient.fetchData` result, src/lambda/orchestrator/lib/cdr-client.js). -/
structure CdrData where
  income : Option String
  expenses : Option String
  savings : Option String
  deriving Repr, DecidableEq

/-- Basiq's account verification result with its affordability metrics
(src/lambda/orchestrator/lib/basiq-client.js `verifyAccount`). -/
structure BasiqVerification where
  accountVerified : Bool
  affordabilityIncome : String
  affordabilityExpenses : String
  deriving Repr, DecidableEq

/-- The `financial_data` blob assembled on the stage's success path
(src/unnamed/part_000 lines 649-658): each provider's output is stored
side by side; no field-level merge is computed. -/
structure FinancialData where
  cdr_data : Option CdrData
  basiq_verification : BasiqVerification
  bank_statements_summary : String
  enriched_data_summary : String
  bsb_validation : String
  npp_status : String
  verified : Bool
  deriving Repr, DecidableEq

/-- The onboarding record attributes the financial stage and the failure
path read and write (src/unnamed/part_000). -/
structure OnboardingRecord where
  status : String
  cdrConsent : Bool
  customerFound : Bool
  financialData : Option FinancialData
  verificationError : Option String
  failureReason : Option String
  deriving Repr, DecidableEq

/-- The object returned by `performFinancialVerification` to the Step
Functions state machine. -/
structure FinStageOutput where
  financialVerified : Bool
  status : String
  reason : Option String
  deriving Repr, DecidableEq

/-- Outcomes of the six provider-client calls made inside the stage's
`try` block (src/unnamed/part_000 lines 630-646), abstracted as `Except`
values: a `.error` is a client call that threw. -/
structure ProviderCalls where
  cdr : Except String CdrData
  basiq : Except String BasiqVerification
  illionSummary : Except String String
  yodleeSummary : Except String String
  bsb : Except String String
  npp : Except String String
  deriving Repr

/-- The `financial_data` object assembled after all six provider calls
succeed (src/unnamed/part_000 lines 649-658): each provider's result is
recorded in its own attribute. -/
def buildFinancialData (cdrData : CdrData) (basiqVerification : BasiqVerification)
    (bankStatementsSummary enrichedSummary bsbValidation nppStatus : String) :
    FinancialData :=
  { cdr_data := some cdrData, basiq_verification := basiqVerification,
    bank_statements_summary := bankStatementsSummary,
    enriched_data_summary := enrichedSummary,
    bsb_validation := bsbValidation, npp_status := nppStatus,
    verified := true }

/-- `performFinancialVerification` (src/unnamed/part_000 lines 590-701).
Returns the stage output, the updated stored record, and whether any
provider client was invoked.  The consent-missing branch returns before
the `try` block: no provider call, no DynamoDB write.  Inside the `try`,
a missing customer record or any thrown client error reaches the
`catch`, which persists `FINANCIAL_VERIFICATION_FAILED` with the error
message. -/
def performFinancialVerification (r : OnboardingRecord) (p : ProviderCalls) :
    FinStageOutput × OnboardingRecord × Bool :=
  if !r.cdrConsent then
    ({ financialVerified := false, status := "FINANCIAL_VERIFICATION_FAILED",
       reason := some "CDR consent not granted" }, r, false)
  else
    let run : Except String FinancialData := do
      if !r.customerFound then
        throw "Customer not found"
      let cdrData ← p.cdr
      let basiqVerification ← p.basiq
      let bankStatementsSummary ← p.illionSummary
      let enrichedSummary ← p.yodleeSummary
      let bsbValidation ← p.bsb
      let nppStatus ← p.npp
      pure (buildFinancialData cdrData basiqVerification bankStatementsSummary
        enrichedSummary bsbValidation nppStatus)
    match run with
    | .ok fd =>
      ({ financialVerified := true, status := "FINANCIAL_VERIFICATION_COMPLETE",
         reason := none },
       { r with financialData := some fd }, true)
    | .error e =>
      ({ financialVerified := false, status := "FINANCIAL_VERIFICATION_FAILED",
         reason := some e },
       { r with status := "FINANCIAL_VERIFICATION_FAILED",
                verificationError := some e }, true)

/-- Whether a client call returned normally (did not throw). -/
def exceptOk : Except String α → Bool
  | .ok _ => true
  | .error _ => false

/-- `notifyFailure` (src/unnamed/part_000 lines 703-767): persists
`status = "FAILED"` and `failure_reason = reason` on the record. -/
def notifyFailure (r : OnboardingRecord) (reason : String) : OnboardingRecord :=
  { r with status := "FAILED", failureReason := some reason }

/-- The Step Functions fragment after the financial stage
(src/step_functions_definition.json, states "Financial Check",
"Financial Verification Failed", "AML Screening"): on
`financial_verified = true` the machine proceeds to AML screening;
otherwise it runs `NOTIFY_FAILURE` with the hard-coded reason
"Financial verification failed" and ends.  Returns the final stored
record and whether any further verification stage executes. -/
def workflowAfterFinancialStage (r : OnboardingRecord) (p : ProviderCalls) :
    OnboardingRecord × Bool :=
  let (out, r', _) := performFinancialVerification r p
  if out.financialVerified then (r', true)
  else (notifyFailure r' "Financial verification failed", false)

/-- The income string interpolated into the Bedrock recommendation
prompt, `financialData.cdr_data?.income || 'Unknown'`
(src/unnamed/part_000 line 851): it reads only the CDR slice of the
stored financial data; the empty string is falsy in JS. -/
def recommendationIncome (financialData : Option FinancialData) : String :=
  match financialData with
  | none => "Unknown"
  | some fd =>
    match fd.cdr_data with
    | none => "Unknown"
    | some c =>
      match c.income with
      | none => "Unknown"
      | some v => if v.isEmpty then "Unknown" else v

/-! ## Illion statement-retrieval poll loop
(src/lambda/orchestrator/lib/illion-client.js, `getBankStatements`,
lines 235-286)

After session creation and submission, the client polls `getJobResults`
in a `while (attempts < maxAttempts)` loop with `maxAttempts = 10`:
a "Job not completed" error increments `attempts` and retries, any other
error propagates, and exhausting the cap throws the timeout error. -/

/-- What one call to `getJobResults` yields: the completed statements, a
"Job not completed" rejection, or some other thrown error. -/
inductive PollOutcome where
  | complete (result : String)
  | pending
  | fail (e : String)
  deriving Repr, DecidableEq

/-- The poll loop of `getBankStatements`, with the k-th poll's outcome
given by `poll k`.  `fuel` is the number of remaining permitted
attempts (`maxAttempts - attempts`); the returned `Nat` counts the polls
actually made. -/
def pollLoop (poll : Nat → PollOutcome) : Nat → Nat → Except String String × Nat
  | _, 0 => (.error "Timed out waiting for bank statement retrieval", 0)
  | i, fuel + 1 =>
    match poll i with
    | .complete r => (.ok r, 1)
    | .fail e => (.error e, 1)
    | .pending =>
      let (res, n) := pollLoop poll (i + 1) fuel
      (res, n + 1)

/-- `getBankStatements`' polling phase: `attempts` starts at 0 and the
cap is 10. -/
def getBankStatementsPolling (poll : Nat → PollOutcome) :
    Except String String × Nat :=
  pollLoop poll 0 10

/-! ## Stub-payload tagging (C9)

Each stub payload is an object literal in the source; we model the
literal's field list, with the boolean fields carried explicitly, so
"contains the tag `simulated: true`" is membership of that pair. -/

/-- A coarse JS value: booleans kept exact, anything else opaque. -/
inductive FieldVal where
  | bool (b : Bool)
  | other
  deriving Repr, DecidableEq

/-- `fs` carries the tag `simulated: true`. -/
def taggedSimulated (fs : List (String × FieldVal)) : Bool :=
  fs.any (fun p => p.1 == "simulated" && p.2 == FieldVal.bool true)

/-- Field list of the object returned by `getMockCdrData`
(src/lambda/orchestrator/lib/cdr-client.js lines 272-334). -/
def getMockCdrDataFields : List (String × FieldVal) :=
  [("customerId", .other), ("consentId", .other), ("accounts", .other),
   ("transactions", .other), ("bsb", .other), ("accountNumber", .other),
   ("income", .other), ("expenses", .other), ("savings", .other),
   ("fetchTimestamp", .other)]

/-- Field list of the object returned by `getMockVerificationResult`
(src/lambda/orchestrator/lib/basiq-client.js lines 274-288). -/
def getMockVerificationResultFields : List (String × FieldVal) :=
  [("userId", .other), ("connectionId", .other),
   ("connectionStatus", .other), ("accountVerified", .bool true),
   ("affordabilityMetrics", .other), ("verificationTimestamp", .other)]

/-- Field list of the object returned by `simulateAmlScreeningResult`
(src/unnamed/part_001 lines 247-261). -/
def simulateAmlScreeningResultFields : List (String × FieldVal) :=
  [("screeningId", .other), ("screeningTime", .other),
   ("riskScore", .other), ("riskCategory", .other), ("alerts", .other),
   ("potentialMatches", .other), ("watchlists", .other),
   ("simulated", .bool true)]

/-- Field list of the simulated DVS verification returned in the `dev`
branch of `verifyWithDVS` (src/lambda/id_verification/index.js lines
434-442). -/
def simulatedDvsVerificationFields : List (String × FieldVal) :=
  [("verified", .bool true), ("verificationId", .other),
   ("timestamp", .other), ("simulated", .bool true)]

/-! ## Biometric check lambda (src/lambda/biometric_check/index.js,
handler lines 66-131)

The handler detects a face in the selfie, then in the ID image; the
face comparison runs only when both detections succeed; liveness runs on
the selfie.  We model the branch structure with the would-be comparison
and liveness results as inputs and record whether the comparison step
was invoked. -/

/-- The `verification` result the biometric handler returns, plus the
failure reason and whether `compareFaces` was invoked on this run. -/
structure BiometricRun where
  biometricVerified : Bool
  reason : Option String
  comparisonInvoked : Bool
  deriving Repr, DecidableEq

/-- The biometric handler's decision structure
(src/lambda/biometric_check/index.js lines 47-131): selfie face absent
fails; a comparison mismatch (checked only when both images have a
detected face) fails; a failed liveness check fails; otherwise the stage
verifies. -/
def biometricHandlerRun (selfieFaceDetected idFaceDetected : Bool)
    (faceMatched : Bool) (livenessIsLive : Bool) : BiometricRun :=
  if !selfieFaceDetected then
    { biometricVerified := false, reason := some "No face detected in selfie",
      comparisonInvoked := false }
  else if selfieFaceDetected && idFaceDetected && !faceMatched then
    { biometricVerified := false,
      reason := some "Face in selfie does not match face in ID",
      comparisonInvoked := true }
  else if !livenessIsLive then
    { biometricVerified := false, reason := some "Liveness check failed",
      comparisonInvoked := selfieFaceDetected && idFaceDetected }
  else
    { biometricVerified := true, reason := none,
      comparisonInvoked := selfieFaceDetected && idFaceDetected }

/-! ## Theorems -/

/-- C1 (counterexample): the per-stage status update has no
`expectedStatus` parameter and no `Conflict` outcome; replaying a stage
result against a record whose current status already moved on (here:
already `AML_SCREENING_PASSED`) does mutate the stored record, refuting
the claim that such a call leaves it completely unchanged. -/
theorem updateProcessStatus_replay_mutates :
    updateProcessStatus ⟨"AML_SCREENING_PASSED", 5, []⟩
      "AML_SCREENING_FAILED" 6
      [("rejection_reason", "High AML/CTF risk score")]
      ≠ ⟨"AML_SCREENING_PASSED", 5, []⟩ := by
  decide

/-- C1 (amended): `updateProcessStatus` performs an unconditional write:
it always records the new status, and whenever the written status
differs from the record's current one the stored record changes — no
`Conflict` is ever signalled and no expected-status guard exists. -/
theorem updateProcessStatus_unconditional (r : ProcessRecord) (s : String)
    (ts : Nat) (d : List (String × String)) (h : s ≠ r.status) :
    (updateProcessStatus r s ts d).status = s ∧
      updateProcessStatus r s ts d ≠ r := by
  refine ⟨rfl, fun heq => ?_⟩
  exact h (congrArg ProcessRecord.status heq)

/-- C1 (witness for the amended theorem). -/
theorem updateProcessStatus_unconditional_witness :
    ("AML_SCREENING_FAILED" : String) ≠ "AML_SCREENING_PASSED" ∧
    ((updateProcessStatus ⟨"AML_SCREENING_PASSED", 5, []⟩
        "AML_SCREENING_FAILED" 6 []).status = "AML_SCREENING_FAILED" ∧
      updateProcessStatus ⟨"AML_SCREENING_PASSED", 5, []⟩
        "AML_SCREENING_FAILED" 6 [] ≠ ⟨"AML_SCREENING_PASSED", 5, []⟩) :=
  ⟨by decide,
    updateProcessStatus_unconditional ⟨"AML_SCREENING_PASSED", 5, []⟩
      "AML_SCREENING_FAILED" 6 [] (by decide)⟩

/-- C2 (counterexample): a risk score of exactly 75 with no alerts and
no potential matches is sent to manual review, not rejected — the
handler's reject guard is `riskScore > 75`, strictly greater. -/
theorem riskGate_75_not_reject :
    riskGateDecision 75 [] [] = RiskDecision.manualReview ∧
      riskGateDecision 75 [] [] ≠ RiskDecision.reject := by
  constructor <;> decide

/-- C2 (amended): the Risk Scoring Gate rejects exactly when the score
is strictly above 75; otherwise it requires manual review exactly when
the score exceeds 50 or an alert or potential match is present;
otherwise it passes.  The spec's instances: 80 → reject, 60 → manual
review, 30 → pass; the boundary 75 → manual review. -/
theorem riskGate_decision_characterization (s : Int) (A : List AmlAlert)
    (M : List AmlMatch) :
    (riskGateDecision s A M = RiskDecision.reject ↔ s > 75) ∧
    (riskGateDecision s A M = RiskDecision.manualReview ↔
      (s ≤ 75 ∧ (s > 50 ∨ A ≠ [] ∨ M ≠ []))) ∧
    (riskGateDecision s A M = RiskDecision.pass ↔
      (s ≤ 50 ∧ A = [] ∧ M = [])) ∧
    riskGateDecision 80 [] [] = RiskDecision.reject ∧
    riskGateDecision 75 [] [] = RiskDecision.manualReview ∧
    riskGateDecision 60 [] [] = RiskDecision.manualReview ∧
    riskGateDecision 30 [] [] = RiskDecision.pass := by
  refine ⟨?_, ?_, ?_, by decide, by decide, by decide, by decide⟩ <;>
    · unfold riskGateDecision
      rcases A with _ | ⟨a, A⟩ <;> rcases M with _ | ⟨m, M⟩ <;>
        by_cases h75 : s > 75 <;> by_cases h50 : s > 50 <;>
        simp [h75, h50] <;> omega

/-- C4 (counterexample): a record already in the terminal status
`COMPLETED` is overwritten to `AML_SCREENING_ERROR` (the status the AML
lambda's error path writes on a duplicate or retried trigger): the
terminal status changes, along a transition that is not an edge of the
§4.5 graph. -/
theorem terminal_status_overwritten :
    (updateProcessStatus ⟨"COMPLETED", 9, []⟩ "AML_SCREENING_ERROR" 10
        [("error_message", "timeout")]).status ≠ "COMPLETED" ∧
      specTerminal "COMPLETED" = true ∧
      specEdge "COMPLETED" "AML_SCREENING_ERROR" = false := by
  refine ⟨by decide, by decide, by decide⟩

/-- C4 (amended): the store enforces no transition discipline at all:
from any record — in particular one whose status is terminal — a stage
update writes any new status, including targets that are not §4.5
edges, so the graph monotonicity and terminal-immutability invariants
are not guaranteed by the persistence layer. -/
theorem updateProcessStatus_ignores_graph (r : ProcessRecord) (s : String)
    (ts : Nat) (d : List (String × String))
    (hterm : specTerminal r.status = true)
    (hedge : specEdge r.status s = false) (hne : s ≠ r.status) :
    (updateProcessStatus r s ts d).status = s ∧
      (updateProcessStatus r s ts d).status ≠ r.status ∧
      specEdge r.status ((updateProcessStatus r s ts d).status) = false ∧
      specTerminal r.status = true := by
  exact ⟨rfl, hne, hedge, hterm⟩

/-- C4 (witness for the amended theorem). -/
theorem updateProcessStatus_ignores_graph_witness :
    specTerminal "COMPLETED" = true ∧
    specEdge "COMPLETED" "AML_SCREENING_ERROR" = false ∧
    ("AML_SCREENING_ERROR" : String) ≠ "COMPLETED" ∧
    ((updateProcessStatus ⟨"COMPLETED", 9, []⟩ "AML_SCREENING_ERROR" 10
        []).status = "AML_SCREENING_ERROR" ∧
      (updateProcessStatus ⟨"COMPLETED", 9, []⟩ "AML_SCREENING_ERROR" 10
        []).status ≠ "COMPLETED" ∧
      specEdge "COMPLETED"
        ((updateProcessStatus ⟨"COMPLETED", 9, []⟩ "AML_SCREENING_ERROR" 10
          []).status) = false ∧
      specTerminal "COMPLETED" = true) :=
  ⟨by decide, by decide, by decide,
    updateProcessStatus_ignores_graph ⟨"COMPLETED", 9, []⟩
      "AML_SCREENING_ERROR" 10 [] (by decide) (by decide) (by decide)⟩

/-- C9 (counterexample): the CDR mock payload and the Basiq mock
verification payload carry no `simulated: true` tag, refuting the claim
that every stub payload is so tagged. -/
theorem cdr_basiq_mocks_untagged :
    taggedSimulated getMockCdrDataFields = false ∧
      taggedSimulated getMockVerificationResultFields = false := by
  decide

/-- C9 (amended): of the stub payloads, the simulated AML screening
result and the simulated DVS verification carry `simulated: true`, but
the CDR mock data and the Basiq mock verification result carry no
`simulated` tag at all. -/
theorem stub_simulated_tags :
    taggedSimulated simulateAmlScreeningResultFields = true ∧
    taggedSimulated simulatedDvsVerificationFields = true ∧
    taggedSimulated getMockCdrDataFields = false ∧
    taggedSimulated getMockVerificationResultFields = false ∧
    ∀ name, (simulateAmlScreeningResult name).simulated = true := by
  refine ⟨by decide, by decide, by decide, by decide, fun name => rfl⟩

/-- C10 (confirmed): when the selfie has a detectable face and the ID
image does not, the biometric handler never invokes the face
comparison, and the stage outcome equals the liveness result — in
particular it verifies whenever liveness passes, so a missing ID face
alone never fails the stage. -/
theorem biometric_skips_comparison_without_id_face
    (faceMatched livenessIsLive : Bool) :
    (biometricHandlerRun true false faceMatched livenessIsLive).comparisonInvoked
        = false ∧
      (biometricHandlerRun true false faceMatched livenessIsLive).biometricVerified
        = livenessIsLive := by
  cases faceMatched <;> cases livenessIsLive <;> exact ⟨rfl, rfl⟩

/-- C3 (counterexample): in a non-production, non-dev environment
("staging"), a screening-provider failure falls back to the simulated
result; for the customer name "Bob Li" the simulated score is
6 × 3 = 18 with no alerts or matches, so the stage outcome is
`aml_passed = true` — a provider failure that auto-approves, refuting
"in every deployment environment ... never PASS". -/
theorem aml_provider_failure_can_pass_in_staging :
    amlHandlerOutcome "staging" (some "Bob Li")
        (Except.error "connect ECONNREFUSED") =
      { amlPassed := true, manualReviewRequired := false } := by
  decide

/-- C3 (amended): in the production environment a screening-provider
failure always yields the manual-review outcome
(`aml_passed = false`, `manual_review_required = true`), never PASS; in
non-production environments the failure instead falls back to the
simulated screening result, which can pass. -/
theorem aml_provider_failure_manual_review_in_prod (name : Option String)
    (e : String) :
    amlHandlerOutcome "prod" name (Except.error e) =
      { amlPassed := false, manualReviewRequired := true } := by
  rfl

/-- A process record that has passed biometrics, granted CDR consent,
with its customer record present. -/
def consentedRecord : OnboardingRecord :=
  { status := "BIOMETRIC_VERIFICATION_COMPLETE", cdrConsent := true,
    customerFound := true, financialData := none,
    verificationError := none, failureReason := none }

/-- The same record with CDR consent absent. -/
def unconsentedRecord : OnboardingRecord :=
  { consentedRecord with cdrConsent := false }

/-- Provider outcomes where the primary CDR source is unavailable while
the account-ownership verifier reports affordability income 7000. -/
def callsCdrAbsent : ProviderCalls :=
  { cdr := .error "Failed to fetch CDR data: unavailable",
    basiq := .ok { accountVerified := true, affordabilityIncome := "7000",
                   affordabilityExpenses := "3000" },
    illionSummary := .ok "statement summary",
    yodleeSummary := .ok "enriched summary",
    bsb := .ok "valid", npp := .ok "capable" }

/-- Provider outcomes where every call succeeds, with CDR income 6500
and verifier affordability income 7000. -/
def callsAllOk : ProviderCalls :=
  { cdr := .ok { income := some "6500.00", expenses := some "3200.00",
                 savings := some "29571.03" },
    basiq := .ok { accountVerified := true, affordabilityIncome := "7000",
                   affordabilityExpenses := "3000" },
    illionSummary := .ok "statement summary",
    yodleeSummary := .ok "enriched summary",
    bsb := .ok "valid", npp := .ok "capable" }

/-- Provider outcomes where steps 1-2 (CDR, Basiq) succeed but step 3
(Illion statement retrieval) throws. -/
def callsIllionFails : ProviderCalls :=
  { callsAllOk with
    illionSummary := .error "Failed to get bank statements from Illion: timeout" }

/-- C5 (counterexample): with the primary CDR source absent, the income
the system consumes downstream is "Unknown", not the account verifier's
affordability income 7000 — no field-priority fallback is computed
anywhere; the claim's "with the CDR source absent it equals 7000" fails. -/
theorem no_income_fallback_when_cdr_absent :
    recommendationIncome
        (performFinancialVerification consentedRecord callsCdrAbsent).2.1.financialData
        = "Unknown" ∧
      ("Unknown" : String) ≠ "7000" := by
  constructor <;> decide

/-- C5 (amended): the code performs no per-field merge: the stored
`financial_data` keeps each provider's output in its own attribute, and
the income consumed downstream (the recommendation prompt's
`cdr_data?.income || 'Unknown'`) is read exclusively from the CDR
slice — it is identical under any change of the Basiq, Illion, Yodlee,
BSB and NPP results, equals the CDR income when present (6500 stays
6500 even with affordability income 7000), and is "Unknown" when the
CDR income is absent. -/
theorem financial_income_reads_only_cdr (cdr : CdrData)
    (b b' : BasiqVerification) (s s' e e' bv bv' n n' : String) :
    recommendationIncome (some (buildFinancialData cdr b s e bv n)) =
        recommendationIncome (some (buildFinancialData cdr b' s' e' bv' n')) ∧
      recommendationIncome (some (buildFinancialData cdr b s e bv n)) =
        (match cdr.income with
         | none => "Unknown"
         | some v => if v.isEmpty then "Unknown" else v) ∧
      recommendationIncome
        (some (buildFinancialData
          { income := some "6500.00", expenses := some "3200.00",
            savings := some "29571.03" }
          { accountVerified := true, affordabilityIncome := "7000",
            affordabilityExpenses := "3000" }
          "stm" "enr" "bsb" "npp")) = "6500.00" := by
  refine ⟨rfl, rfl, by decide⟩

/-- C6 (counterexample): for a process without CDR consent, the stage
output advertises status `FINANCIAL_VERIFICATION_FAILED` with reason
"CDR consent not granted", but after the failure branch of the state
machine runs, the persisted record's status is "FAILED" — not
`FINANCIAL_VERIFICATION_FAILED` — and its persisted failure reason is
the hard-coded "Financial verification failed", not
"CDR consent not granted". -/
theorem consent_failure_not_persisted_as_claimed :
    (workflowAfterFinancialStage unconsentedRecord callsAllOk).1.status
        = "FAILED" ∧
      (workflowAfterFinancialStage unconsentedRecord callsAllOk).1.status
        ≠ "FINANCIAL_VERIFICATION_FAILED" ∧
      (workflowAfterFinancialStage unconsentedRecord callsAllOk).1.failureReason
        = some "Financial verification failed" ∧
      (workflowAfterFinancialStage unconsentedRecord callsAllOk).1.failureReason
        ≠ some "CDR consent not granted" := by
  refine ⟨by decide, by decide, by decide, by decide⟩

/-- C6 (amended): when CDR consent is absent the stage fails
immediately — no provider is invoked, the record is not written by the
stage, and the stage output carries `financial_verified = false`,
status `FINANCIAL_VERIFICATION_FAILED` and reason
"CDR consent not granted"; the state machine then runs no further
verification stage and persists status "FAILED" with failure reason
"Financial verification failed". -/
theorem consent_absent_fails_immediately (r : OnboardingRecord)
    (p : ProviderCalls) (h : r.cdrConsent = false) :
    (performFinancialVerification r p).1 =
        { financialVerified := false,
          status := "FINANCIAL_VERIFICATION_FAILED",
          reason := some "CDR consent not granted" } ∧
      (performFinancialVerification r p).2.1 = r ∧
      (performFinancialVerification r p).2.2 = false ∧
      (workflowAfterFinancialStage r p).2 = false ∧
      (workflowAfterFinancialStage r p).1 =
        { r with status := "FAILED",
                 failureReason := some "Financial verification failed" } := by
  obtain ⟨st, consent, found, fd, ve, fr⟩ := r
  subst h
  exact ⟨rfl, rfl, rfl, rfl, rfl⟩

/-- C6 (witness for the amended theorem). -/
theorem consent_absent_fails_immediately_witness :
    unconsentedRecord.cdrConsent = false ∧
      (performFinancialVerification unconsentedRecord callsAllOk).1 =
        { financialVerified := false,
          status := "FINANCIAL_VERIFICATION_FAILED",
          reason := some "CDR consent not granted" } ∧
      (performFinancialVerification unconsentedRecord callsAllOk).2.2 = false ∧
      (workflowAfterFinancialStage unconsentedRecord callsAllOk).2 = false :=
  have h := consent_absent_fails_immediately unconsentedRecord callsAllOk
    (by decide)
  ⟨by decide, h.1, h.2.2.1, h.2.2.2.1⟩

/-- C7 (counterexample): with consent on file, steps 1-2 (CDR and the
account-ownership verifier) succeeding, and step 3 (statement
retrieval) failing irrecoverably, the stage returns
`financial_verified = false` — the single try/catch fails the whole
stage, refuting the claim of a degraded-but-verified outcome. -/
theorem illion_failure_fails_whole_stage :
    (performFinancialVerification consentedRecord callsIllionFails).1.financialVerified
        = false ∧
      (performFinancialVerification consentedRecord callsIllionFails).1.reason
        = some "Failed to get bank statements from Illion: timeout" ∧
      (performFinancialVerification consentedRecord callsIllionFails).2.1.status
        = "FINANCIAL_VERIFICATION_FAILED" := by
  refine ⟨by decide, by decide, by decide⟩

/-- C7 (amended): the stage verifies exactly when consent is on file,
the customer record exists, and all six provider calls — including the
statement-retrieval and enrichment providers — return without throwing;
any irrecoverable provider failure, at any step, makes the stage
outcome `financial_verified = false`. -/
theorem financial_verified_iff_all_providers_ok (r : OnboardingRecord)
    (p : ProviderCalls) :
    (performFinancialVerification r p).1.financialVerified =
      (r.cdrConsent && r.customerFound && exceptOk p.cdr &&
        exceptOk p.basiq && exceptOk p.illionSummary &&
        exceptOk p.yodleeSummary && exceptOk p.bsb && exceptOk p.npp) := by
  obtain ⟨st, consent, found, fd, ve, fr⟩ := r
  obtain ⟨c, b, i, y, bs, n⟩ := p
  cases consent <;> cases found <;> cases c <;> cases b <;> cases i <;>
    cases y <;> cases bs <;> cases n <;> rfl

/-- Helper for the poll-loop analysis: when every poll reports
pending, the loop consumes all its fuel and times out. -/
theorem pollLoop_allPending (poll : Nat → PollOutcome)
    (h : ∀ k, poll k = PollOutcome.pending) (fuel : Nat) :
    ∀ i, pollLoop poll i fuel =
      (Except.error "Timed out waiting for bank statement retrieval", fuel) := by
  induction fuel with
  | zero => intro i; rfl
  | succ f ih =>
    intro i
    simp only [pollLoop, h i, ih (i + 1)]

/-- Helper for the poll-loop analysis: if the next `N` polls report
pending (with `N` below the remaining fuel) and the following poll
completes, the loop returns that completion after `N + 1` polls. -/
theorem pollLoop_pending_then_complete (poll : Nat → PollOutcome)
    (res : String) (fuel : Nat) :
    ∀ i N, N < fuel →
      (∀ k, k < N → poll (i + k) = PollOutcome.pending) →
      poll (i + N) = PollOutcome.complete res →
      pollLoop poll i fuel = (Except.ok res, N + 1) := by
  induction fuel with
  | zero => intro i N hN _ _; exact absurd hN (Nat.not_lt_zero N)
  | succ f ih =>
    intro i N hN hpend hdone
    cases N with
    | zero =>
      rw [Nat.add_zero] at hdone
      simp only [pollLoop, hdone]
    | succ M =>
      have hp0 : poll i = PollOutcome.pending := by
        have h0 := hpend 0 (Nat.succ_pos M)
        rwa [Nat.add_zero] at h0
      have hpend' : ∀ k, k < M → poll ((i + 1) + k) = PollOutcome.pending := by
        intro k hk
        have e1 : (i + 1) + k = i + (k + 1) := by omega
        rw [e1]
        exact hpend (k + 1) (by omega)
      have hdone' : poll ((i + 1) + M) = PollOutcome.complete res := by
        have e2 : (i + 1) + M = i + (M + 1) := by omega
        rw [e2]
        exact hdone
      have hrec := ih (i + 1) M (Nat.lt_of_succ_lt_succ hN) hpend' hdone'
      simp only [pollLoop, hp0, hrec]

/-- C8 (confirmed): the statement-retrieval poll loop of
`getBankStatements` (attempt cap 10): if the job reports not-completed
for `N` consecutive polls with `N` below the cap and the next poll
completes, the call returns the completed result after exactly `N + 1`
polls; and if every poll reports not-completed, the call returns the
timeout failure after exactly 10 polls — the loop never runs past the
cap, so it cannot hang. -/
theorem getBankStatements_polling_bounded (poll : Nat → PollOutcome) :
    (∀ N res, N < 10 →
        (∀ k, k < N → poll k = PollOutcome.pending) →
        poll N = PollOutcome.complete res →
        getBankStatementsPolling poll = (Except.ok res, N + 1)) ∧
      ((∀ k, poll k = PollOutcome.pending) →
        getBankStatementsPolling poll =
          (Except.error "Timed out waiting for bank statement retrieval", 10)) := by
  constructor
  · intro N res hN hpend hdone
    have hpend0 : ∀ k, k < N → poll (0 + k) = PollOutcome.pending := by
      intro k hk
      rw [Nat.zero_add]
      exact hpend k hk
    have hdone0 : poll (0 + N) = PollOutcome.complete res := by
      rw [Nat.zero_add]
      exact hdone
    exact pollLoop_pending_then_complete poll res 10 0 N hN hpend0 hdone0
  · intro hall
    exact pollLoop_allPending poll hall 10 0

/-- A job that reports pending three times and then completes. -/
def examplePoll : Nat → PollOutcome :=
  fun k => if k < 3 then PollOutcome.pending else PollOutcome.complete "statements"

/-- C8 (witness): the poll-loop theorem applied to a job pending for 3
polls then complete (returns after 4 polls), and to a job that never
completes (timeout after 10 polls). -/
theorem getBankStatements_polling_bounded_witness :
    getBankStatementsPolling examplePoll = (Except.ok "statements", 4) ∧
      getBankStatementsPolling (fun _ => PollOutcome.pending) =
        (Except.error "Timed out waiting for bank statement retrieval", 10) :=
  ⟨(getBankStatements_polling_bounded examplePoll).1 3 "statements"
      (by decide)
      (fun k hk => by
        unfold examplePoll
        rw [if_pos hk])
      rfl,
    (getBankStatements_polling_bounded (fun _ => PollOutcome.pending)).2
      (fun _ => rfl)⟩

/-- C2 (witness): the characterization applied at the spec's concrete
scores. -/
theorem riskGate_decision_characterization_witness :
    riskGateDecision 80 [] [] = RiskDecision.reject ∧
      riskGateDecision 75 [] [] = RiskDecision.manualReview :=
  ⟨(riskGate_decision_characterization 80 [] []).2.2.2.1,
    (riskGate_decision_characterization 75 [] []).2.2.2.2.1⟩

/-- C3 (witness): the production fallback theorem at a concrete
customer and provider error. -/
theorem aml_provider_failure_manual_review_in_prod_witness :
    amlHandlerOutcome "prod" (some "Bob Li")
        (Except.error "connect ECONNREFUSED") =
      { amlPassed := false, manualReviewRequired := true } :=
  aml_provider_failure_manual_review_in_prod (some "Bob Li")
    "connect ECONNREFUSED"

/-- C5 (witness): the CDR-only income theorem at the spec's concrete
figures. -/
theorem financial_income_reads_only_cdr_witness :
    recommendationIncome
        (some (buildFinancialData
          { income := some "6500.00", expenses := some "3200.00",
            savings := some "29571.03" }
          { accountVerified := true, affordabilityIncome := "7000",
            affordabilityExpenses := "3000" }
          "stm" "enr" "bsb" "npp")) = "6500.00" :=
  (financial_income_reads_only_cdr
    { income := some "6500.00", expenses := some "3200.00",
      savings := some "29571.03" }
    { accountVerified := true, affordabilityIncome := "7000",
      affordabilityExpenses := "3000" }
    { accountVerified := true, affordabilityIncome := "7000",
      affordabilityExpenses := "3000" }
    "stm" "stm" "enr" "enr" "bsb" "bsb" "npp" "npp").2.2

/-- C7 (witness): the all-providers characterization at the concrete
record and provider outcomes where the statement retrieval fails. -/
theorem financial_verified_iff_all_providers_ok_witness :
    (performFinancialVerification consentedRecord callsIllionFails).1.financialVerified
      = (consentedRecord.cdrConsent && consentedRecord.customerFound &&
        exceptOk callsIllionFails.cdr && exceptOk callsIllionFails.basiq &&
        exceptOk callsIllionFails.illionSummary &&
        exceptOk callsIllionFails.yodleeSummary &&
        exceptOk callsIllionFails.bsb && exceptOk callsIllionFails.npp) :=
  financial_verified_iff_all_providers_ok consentedRecord callsIllionFails

end Onboarding
